import Mathlib

/-!
Verification of the scratch-file lifecycle of the QuickSideTool PDF backend
(`app.py`). The Python source is shallowly embedded: strings are Lean
`String`s, byte payloads are `List Nat`, the filesystem is the list of paths
that currently exist (with creation timestamps in seconds, as `Int`, where the
reclamation pass needs them), and the outcomes of external collaborators
(pikepdf, the Adobe service) are oracle parameters. Randomness (uuid4) is
modelled by passing the generated identifier strings as parameters.
-/

namespace QuickSideTool

/-! ### Python string primitives used by `app.py` -/

/-- Python `str.lower()` (the filenames involved are ASCII, where
`Char.toLower` agrees with Python). -/
def str_lower (s : String) : String := ⟨s.data.map Char.toLower⟩

/-- Python `str.endswith(suffix)`. -/
def str_endswith (s suffix : String) : Bool := suffix.data.isSuffixOf s.data

/-- Whether a string starts with the path separator. -/
def startsWithSlash (s : String) : Bool := s.data.head? == some '/'

/-- Whether a string ends with the path separator. -/
def endsWithSlash (s : String) : Bool := s.data.getLast? == some '/'

/-- Python `os.path.join(a, b)` for two components on a POSIX system:
if `b` is absolute it wins; if `a` is empty or already ends in the
separator, plain concatenation; otherwise a separator is inserted. -/
def os_path_join (a b : String) : String :=
  if startsWithSlash b then b
  else if a == "" || endsWithSlash a then a ++ b
  else a ++ "/" ++ b

/-! ### Configuration constants (`app.py` lines 46-48) -/

/-- `MAX_FILE_SIZE = 50 * 1024 * 1024` (bytes). -/
def MAX_FILE_SIZE : Nat := 50 * 1024 * 1024

/-- `CLEANUP_INTERVAL = 600` (seconds). -/
def CLEANUP_INTERVAL : Nat := 600

/-! ### Utility functions (`app.py` lines 74-91) -/

/-- `validate_file_size(file_size)`: `file_size <= MAX_FILE_SIZE`. -/
def validate_file_size (file_size : Nat) : Bool := file_size ≤ MAX_FILE_SIZE

/-- `validate_pdf_file(file)`: `file.filename.lower().endswith(".pdf")`. -/
def validate_pdf_file (filename : String) : Bool :=
  str_endswith (str_lower filename) ".pdf"

/-- `create_temp_file(extension)`: composes
`os.path.join(TEMP_DIR, f"{unique_id}{extension}")`. The process-wide
`TEMP_DIR` (chosen by `tempfile.mkdtemp()` at startup) and the freshly
generated `str(uuid.uuid4())` are passed as parameters. The function performs
no filesystem access. -/
def create_temp_file (tempDir : String) (unique_id : String) (extension : String) : String :=
  os_path_join tempDir (unique_id ++ extension)

/-- A lowercase hexadecimal digit (uuid4 strings are rendered in lowercase). -/
def isLowerHexChar (c : Char) : Bool := c.isDigit || ('a' ≤ c && c ≤ 'f')

/-- The format of `str(uuid.uuid4())`: exactly 36 characters, each a lowercase
hex digit or a hyphen. -/
def isUuidStr (s : String) : Bool :=
  s.length == 36 && s.data.all (fun c => isLowerHexChar c || c == '-')

/-! ### Filesystem model and the per-path release pattern

The filesystem is the list of paths that currently exist. A `locked` list
marks paths whose deletion fails with a permission error (empty when no such
faults are injected). -/

/-- Removal of a path from the filesystem: after it, the path no longer
exists (paths are unique on a real filesystem). -/
def fs_remove (fs : List String) (p : String) : List String :=
  fs.filter (fun q => q != p)

/-- Python `os.remove(p)`: raises `FileNotFoundError` when the path is
absent and `PermissionError` when the path is locked; otherwise deletes. -/
def os_remove (locked fs : List String) (p : String) : Except String (List String) :=
  if p ∈ fs then
    (if p ∈ locked then .error "PermissionError" else .ok (fs_remove fs p))
  else .error "FileNotFoundError"

/-- The cleanup step every handler runs per path in its `finally` block
(`app.py` lines 175-180 and analogues):
`if os.path.exists(path): try: os.remove(path) except: pass`.
Every exception from `os.remove` is caught by the bare `except`, so the
function is total into the filesystem — no error outcome exists. -/
def release (locked fs : List String) (p : String) : List String :=
  if p ∈ fs then
    match os_remove locked fs p with
    | .ok fs2 => fs2
    | .error _ => fs
  else fs

/-! ### Requests and handler outcomes -/

/-- An uploaded file as the handlers see it: the client-supplied filename,
the declared size (`file.size`, bytes) and the payload bytes. -/
structure Upload where
  filename : String
  size : Nat
  content : List Nat
deriving DecidableEq

/-- How a handler invocation ends: a `FileResponse` built over a path, an
`HTTPException(status_code)`, or an uncaught Python exception escaping the
handler (for example a `NameError` raised inside the `finally` block). -/
inductive HandlerOutcome where
  | fileResponse (path : String)
  | httpError (code : Nat)
  | pythonError (exc : String)
deriving DecidableEq

/-- The observable result of one handler run: its outcome, the filesystem
after the handler (its `finally` block included) finished, and the scratch
paths issued by `create_temp_file` during the run, in order. -/
structure HandlerRun where
  outcome : HandlerOutcome
  fs : List String
  issued : List String
deriving DecidableEq

/-! ### `/unlock-pdf` (`app.py` lines 128-180) -/

/-- Oracle for `pikepdf.open(input_path, password=...)` followed by
`pdf.save(output_path)`: the outcome is a function of the uploaded bytes and
the password, supplied here as a parameter. -/
inductive PikepdfOutcome where
  | ok
  | passwordError
  | pdfErrorNotEncrypted
  | pdfErrorOther
  | otherError
deriving DecidableEq

/-- The `unlock_pdf_legacy` handler. Validation failures raise
`HTTPException(400)` before any scratch path is issued. Otherwise two paths
are issued, the upload is written to the first, pikepdf runs, and the
`finally` block releases both paths (both local variables are always bound
here, having been assigned at the top of the `try`). On success the handler
returns a `FileResponse` over `output_path`; the `FileResponse` constructor
only records the path, it does not read the file. -/
def unlock_pdf_legacy (tempDir : String) (locked : List String) (file : Upload)
    (password : String) (id1 id2 : String) (pike : PikepdfOutcome)
    (fs : List String) : HandlerRun :=
  if validate_pdf_file file.filename = false then ⟨.httpError 400, fs, []⟩
  else if validate_file_size file.size = false then ⟨.httpError 400, fs, []⟩
  else
    let input_path := create_temp_file tempDir id1 ".pdf"
    let output_path := create_temp_file tempDir id2 ".pdf"
    let fs1 := input_path :: fs
    let pending : HandlerOutcome :=
      match pike with
      | .ok => .fileResponse output_path
      | .passwordError => .httpError 400
      | .pdfErrorNotEncrypted => .httpError 400
      | .pdfErrorOther => .httpError 400
      | .otherError => .httpError 500
    let fs2 := match pike with | .ok => output_path :: fs1 | _ => fs1
    ⟨pending, release locked (release locked fs2 input_path) output_path,
      [input_path, output_path]⟩

/-- Whether the response body can be produced once the handler has returned.
Starlette's `FileResponse` is lazy: the file is opened and streamed when the
response object is called by the server, which happens strictly after the
handler coroutine — its `finally` block included — has finished. So the body
is produced against `run.fs`, the filesystem left behind by the handler. -/
def fileResponse_body_available (run : HandlerRun) : Bool :=
  match run.outcome with
  | .fileResponse p => run.fs.contains p
  | _ => true

/-! ### `/adobe/extract-text` (`app.py` lines 517-572) -/

/-- Oracle for `adobe_service.extract_text_with_ocr(input_path)`: either it
raises, or it returns a text (Python truthiness: the empty string is falsy). -/
inductive AdobeOcrOutcome where
  | raises
  | returns (text : String)
deriving DecidableEq

/-- The `finally` block of `adobe_extract_text`, with Python local-variable
semantics: the block first evaluates the list display
`[input_path, output_path]`. When `output_path` was never assigned (the
handler failed before line 544) this evaluation raises `NameError`
(`UnboundLocalError`), which replaces the pending outcome and skips every
removal. When both locals are bound, each path is released in order. -/
def extract_text_finally (locked : List String) (input_path output_path : Option String)
    (pending : HandlerOutcome) (fs : List String) : HandlerOutcome × List String :=
  match input_path, output_path with
  | some i, some o => (pending, release locked (release locked fs i) o)
  | _, _ => (.pythonError "NameError", fs)

/-- The `adobe_extract_text` handler. After validation it issues
`input_path` and writes the upload there. `output_path` is assigned only in
the truthy branch (line 544), after the OCR call succeeded with nonempty
text; on the failure routes it stays unbound when the `finally` block runs.
File writes themselves are modelled as succeeding. -/
def adobe_extract_text (tempDir : String) (locked : List String) (file : Upload)
    (id1 id2 : String) (ocr : AdobeOcrOutcome) (fs : List String) : HandlerRun :=
  if validate_pdf_file file.filename = false then ⟨.httpError 400, fs, []⟩
  else if validate_file_size file.size = false then ⟨.httpError 400, fs, []⟩
  else
    let input_path := create_temp_file tempDir id1 ".pdf"
    let fs1 := input_path :: fs
    match ocr with
    | .raises =>
      let r := extract_text_finally locked (some input_path) none (.httpError 500) fs1
      ⟨r.1, r.2, [input_path]⟩
    | .returns t =>
      if t = "" then
        let r := extract_text_finally locked (some input_path) none (.httpError 500) fs1
        ⟨r.1, r.2, [input_path]⟩
      else
        let output_path := create_temp_file tempDir id2 ".txt"
        let fs2 := output_path :: fs1
        let r := extract_text_finally locked (some input_path) (some output_path)
          (.fileResponse output_path) fs2
        ⟨r.1, r.2, [input_path, output_path]⟩

/-! ### The background reclamation loop (`app.py` lines 51-66)

`cleanup_temp_files` is a `while True` loop: each iteration wraps one pass
over `TEMP_DIR` in `try/except Exception` (so any error in a pass is logged
and swallowed), then sleeps `CLEANUP_INTERVAL = 600` seconds. The directory
listing is external input (requests add and remove files concurrently), so
each pass receives its listing — pairs of path and creation time
(`os.path.getctime`, seconds) — from an environment. -/

/-- The per-file survival test of one pass: the file is removed when
`current_time - file_time > timedelta(minutes=10)`, i.e. kept otherwise.
Times are in seconds. -/
def keep_file (now : Int) (f : String × Int) : Bool := !(now - f.2 > 600)

/-- One full pass of the loop body over a directory listing: returns the
files that survive (exactly those not strictly older than 10 minutes). -/
def cleanup_pass (now : Int) (files : List (String × Int)) : List (String × Int) :=
  files.filter (keep_file now)

/-- The input one iteration receives: the directory listing, and an injected
fault — `some k` means an exception is raised after the first `k` listed
files were processed (`k = 0` covers a failing `os.listdir`). -/
structure CleanupEnv where
  files : List (String × Int)
  fault : Option Nat
deriving DecidableEq

/-- One attempted pass: without a fault it is `cleanup_pass`; with fault
`some k` only the first `k` files were processed before the exception, the
rest are untouched, and the iteration reports that an error was caught. -/
def run_pass (now : Int) (env : CleanupEnv) : List (String × Int) × Bool :=
  match env.fault with
  | none => (cleanup_pass now env.files, false)
  | some k => ((env.files.take k).filter (keep_file now) ++ env.files.drop k, true)

/-- The loop's own state: current time, number of completed passes, number
of errors logged by the `except` clause. -/
structure LoopState where
  now : Int
  passes : Nat
  errorsLogged : Nat
deriving DecidableEq

/-- One iteration of the `while True` body: attempt the pass (the
`try/except Exception` catches any fault and logs it), then
`await asyncio.sleep(CLEANUP_INTERVAL)` advances time by 600 seconds. -/
def cleanup_iteration (env : CleanupEnv) (s : LoopState) : LoopState :=
  let r := run_pass s.now env
  { now := s.now + 600
    passes := s.passes + 1
    errorsLogged := s.errorsLogged + (if r.2 then 1 else 0) }

/-- The state of `cleanup_temp_files` after `n` iterations against the
environment `env` (pass number `k` runs against `env k`). -/
def cleanup_temp_files (env : Nat → CleanupEnv) (s0 : LoopState) : Nat → LoopState
  | 0 => s0
  | n + 1 => cleanup_iteration (env n) (cleanup_temp_files env s0 n)

/-! ### Pre-issuance validation of every PDF endpoint

Each handler runs its validation checks before its `try` block, hence before
any `create_temp_file` call. `some 400` means the request is rejected with
`HTTPException(400)` before any scratch path is issued; `none` means the
handler proceeds to issue paths. -/

/-- `/unlock-pdf` pre-issuance checks (`app.py` lines 131-135). -/
def unlock_pdf_preIssue (file : Upload) (password : String) : Option Nat :=
  if validate_pdf_file file.filename = false then some 400
  else if validate_file_size file.size = false then some 400
  else none

/-- `/lock-pdf` pre-issuance checks (`app.py` lines 186-190). -/
def lock_pdf_preIssue (file : Upload) (password : String) : Option Nat :=
  if validate_pdf_file file.filename = false then some 400
  else if validate_file_size file.size = false then some 400
  else none

/-- `/remove-pdf-links` pre-issuance checks (`app.py` lines 244-248). -/
def remove_pdf_links_preIssue (file : Upload) : Option Nat :=
  if validate_pdf_file file.filename = false then some 400
  else if validate_file_size file.size = false then some 400
  else none

/-- `/adobe/convert/pdf-to-word` pre-issuance checks (`app.py` lines 306-310). -/
def adobe_pdf_to_word_preIssue (file : Upload) : Option Nat :=
  if validate_pdf_file file.filename = false then some 400
  else if validate_file_size file.size = false then some 400
  else none

/-- `/adobe/convert/pdf-to-excel` pre-issuance checks (`app.py` lines 359-363). -/
def adobe_pdf_to_excel_preIssue (file : Upload) : Option Nat :=
  if validate_pdf_file file.filename = false then some 400
  else if validate_file_size file.size = false then some 400
  else none

/-- `/adobe/compress-pdf` pre-issuance checks (`app.py` lines 415-422): this
endpoint additionally rejects an invalid `compression_level` form field with
status 400, still before any scratch path is issued. -/
def adobe_compress_pdf_preIssue (file : Upload) (compression_level : String) : Option Nat :=
  if validate_pdf_file file.filename = false then some 400
  else if validate_file_size file.size = false then some 400
  else if compression_level ∉ (["low", "medium", "high"] : List String) then some 400
  else none

/-- `/adobe/optimize-pdf` pre-issuance checks (`app.py` lines 469-473). -/
def adobe_optimize_pdf_preIssue (file : Upload) : Option Nat :=
  if validate_pdf_file file.filename = false then some 400
  else if validate_file_size file.size = false then some 400
  else none

/-- `/adobe/extract-text` pre-issuance checks (`app.py` lines 520-524). -/
def adobe_extract_text_preIssue (file : Upload) : Option Nat :=
  if validate_pdf_file file.filename = false then some 400
  else if validate_file_size file.size = false then some 400
  else none

/-! ### Issuance as the handlers observe it -/

/-- The state of the managed scratch directory: whether it exists and is
writable. `create_temp_file` never inspects the filesystem, so this state is
threaded only to let the spec's claim about it be stated. -/
structure ScratchDirState where
  available : Bool
deriving DecidableEq

/-- How a call to Issue could end: with a path, or with the spec's
`StorageUnavailable` condition. -/
inductive IssueOutcome where
  | ok (path : String)
  | storageUnavailable
deriving DecidableEq

/-- The handler-visible outcome of calling `create_temp_file`: the source
function is a pure string composition with no `raise` and no filesystem
access, so it returns a path unconditionally, whatever the state of the
scratch directory. -/
def issue (tempDir : String) (dir : ScratchDirState) (unique_id extension : String) :
    IssueOutcome :=
  .ok (create_temp_file tempDir unique_id extension)

/-! ### Issuance as a state transformer -/

/-- Process state relevant to issuance: the files on disk, and a table of
recorded `(path, createdAt)` entries. The source keeps no such table — the
field exists to express the spec's claim that Issue records a creation
time; the reclamation loop instead reads ages from filesystem metadata. -/
structure ScratchState where
  fs : List String
  entries : List (String × Int)
deriving DecidableEq

/-- `create_temp_file` as a state transformer at time `now`: the source
function only composes and returns a string, so the state — files on disk
and recorded entries alike — passes through unchanged. -/
def create_temp_file_run (tempDir : String) (st : ScratchState)
    (unique_id extension : String) (now : Int) : String × ScratchState :=
  (create_temp_file tempDir unique_id extension, st)

/-! ## Claim theorems -/

/-- C1: the claim says every issued scratch path is released on every exit
route, and in particular that the text-extraction handler leaves no issued
scratch file on disk when processing fails before the output path is
written. The code violates this: on that route `output_path` was never
assigned, so the `finally` block's list display raises `NameError` before
any removal runs — the handler escapes with an uncaught Python error and
the issued input scratch file `TEMP_DIR/u1.pdf` is still on disk. The same
happens when the OCR call returns an empty (falsy) text. -/
theorem c1_extract_text_leaks_input :
    (adobe_extract_text "/t" [] ⟨"a.pdf", 100, []⟩ "u1" "u2" .raises []).outcome
        = .pythonError "NameError"
    ∧ (adobe_extract_text "/t" [] ⟨"a.pdf", 100, []⟩ "u1" "u2" .raises []).issued
        = [create_temp_file "/t" "u1" ".pdf"]
    ∧ (adobe_extract_text "/t" [] ⟨"a.pdf", 100, []⟩ "u1" "u2" .raises []).fs
        = [create_temp_file "/t" "u1" ".pdf"]
    ∧ (adobe_extract_text "/t" [] ⟨"a.pdf", 100, []⟩ "u1" "u2" (.returns "") []).fs
        = [create_temp_file "/t" "u1" ".pdf"] := by
  decide

/-- C2: the claim says that for a successful operation the scratch files are
deleted only after the response body is produced, so the output file still
exists at body-production time. The code violates this: the handler returns
a lazy `FileResponse` and its `finally` block deletes both scratch files
before the server produces the body, so at that moment the output path no
longer exists (here the post-handler filesystem is empty). -/
theorem c2_output_deleted_before_body :
    (unlock_pdf_legacy "/t" [] ⟨"a.pdf", 100, []⟩ "pw" "u1" "u2" .ok []).outcome
        = .fileResponse (create_temp_file "/t" "u2" ".pdf")
    ∧ (unlock_pdf_legacy "/t" [] ⟨"a.pdf", 100, []⟩ "pw" "u1" "u2" .ok []).fs = []
    ∧ fileResponse_body_available
        (unlock_pdf_legacy "/t" [] ⟨"a.pdf", 100, []⟩ "pw" "u1" "u2" .ok []) = false := by
  decide

/-- C3: a single reclamation pass keeps exactly the files whose age
`now - ctime` does not strictly exceed 600 seconds (10 minutes) — deleting
exactly those strictly older — and on files created 11 minutes and 1 minute
before `now = 700` it removes the first and keeps the second. -/
theorem c3_reclaim_exactly_stale :
    (∀ (now : Int) (files : List (String × Int)) (f : String × Int),
        f ∈ cleanup_pass now files ↔ (f ∈ files ∧ ¬(now - f.2 > 600)))
    ∧ cleanup_pass 700 [("old", 40), ("young", 640)] = [("young", 640)] := by
  refine ⟨?_, by decide⟩
  intro now files f
  simp [cleanup_pass, keep_file, List.mem_filter]

/-- C6: the reclamation loop reaches its `n`-th pass for every `n`,
whatever errors the environment injects into any pass (the per-pass
`try/except` swallows them), and the passes stay on the fixed 600-second
schedule: after `n` iterations exactly `n` passes have completed and the
clock has advanced by `600 * n` seconds. -/
theorem c6_loop_survives_pass_errors (env : Nat → CleanupEnv) (s0 : LoopState) (n : Nat) :
    (cleanup_temp_files env s0 n).passes = s0.passes + n
    ∧ (cleanup_temp_files env s0 n).now = s0.now + 600 * n := by
  induction n with
  | zero => simp [cleanup_temp_files]
  | succ k ih =>
    obtain ⟨h1, h2⟩ := ih
    constructor
    · simp [cleanup_temp_files, cleanup_iteration, h1]
      omega
    · simp [cleanup_temp_files, cleanup_iteration, h2]
      ring

/-- C7 counterexample: the claim says Issue fails with `StorageUnavailable`
whenever the scratch directory is unavailable. It does not:
`create_temp_file` performs no filesystem access, so with the directory
unavailable it still returns a composed path and never the
`StorageUnavailable` outcome. -/
theorem c7_counterexample :
    issue "/t" ⟨false⟩ "u1" ".pdf" = .ok "/t/u1.pdf"
    ∧ issue "/t" ⟨false⟩ "u1" ".pdf" ≠ .storageUnavailable := by
  decide

/-- C7 amended: Issue never fails at all — whatever the state of the
scratch directory it returns `ok` with the composed path, its result does
not depend on directory availability, and consequently no scratch-manager
error (`StorageUnavailable` included) ever reaches a caller from Issue. -/
theorem c7_issue_never_fails (tempDir : String) (d1 d2 : ScratchDirState)
    (unique_id extension : String) :
    (∃ p, issue tempDir d1 unique_id extension = .ok p)
    ∧ issue tempDir d1 unique_id extension = issue tempDir d2 unique_id extension
    ∧ issue tempDir d1 unique_id extension ≠ .storageUnavailable := by
  exact ⟨⟨create_temp_file tempDir unique_id extension, rfl⟩, rfl, by simp [issue]⟩

/-- C8 counterexample: the claim says Issue records the creation time. It
does not: after a concrete call the table of recorded entries is exactly
what it was before (here empty), even though the path was returned, so no
creation time was recorded anywhere. -/
theorem c8_counterexample :
    (create_temp_file_run "/t" ⟨["f"], []⟩ "u1" ".pdf" 5).1 = "/t/u1.pdf"
    ∧ (create_temp_file_run "/t" ⟨["f"], []⟩ "u1" ".pdf" 5).2.entries = [] := by
  decide

/-- C8 amended: Issue composes its returned path inside the scratch
directory from the generated identifier followed by the caller-supplied
extension, creates no file and changes no state at all — the filesystem is
unchanged, and (contrary to the claim) no creation-time record is made
either; file age is later read from filesystem metadata by the
reclamation loop. -/
theorem c8_issue_is_pure_composition (tempDir : String) (st : ScratchState)
    (unique_id extension : String) (now : Int) :
    (create_temp_file_run tempDir st unique_id extension now).1
        = os_path_join tempDir (unique_id ++ extension)
    ∧ (create_temp_file_run tempDir st unique_id extension now).2.fs = st.fs
    ∧ (create_temp_file_run tempDir st unique_id extension now).2.entries = st.entries :=
  ⟨rfl, rfl, rfl⟩

/-- After removal, the path is gone. -/
theorem not_mem_fs_remove (fs : List String) (p : String) : p ∉ fs_remove fs p := by
  intro h
  rcases List.mem_filter.mp h with ⟨-, hne⟩
  simp at hne

/-- C5: Release never observably errors. Releasing an absent path returns
the filesystem unchanged (no error); releasing twice equals releasing once
(the second call finds the path absent and is a no-op); and whenever the
underlying `os.remove` fails with any exception (missing file, permission),
`release` still returns normally with the filesystem unchanged — the bare
`except: pass` swallows the failure. -/
theorem c5_release_never_errors (locked fs : List String) (p : String) :
    (p ∉ fs → release locked fs p = fs)
    ∧ release locked (release locked fs p) p = release locked fs p
    ∧ (∀ e, os_remove locked fs p = Except.error e → release locked fs p = fs) := by
  refine ⟨fun h => by simp [release, h], ?_, ?_⟩
  · by_cases hf : p ∈ fs
    · by_cases hl : p ∈ locked
      · simp [release, os_remove, hf, hl]
      · have hgone := not_mem_fs_remove fs p
        simp [release, os_remove, hf, hl, hgone]
    · simp [release, hf]
  · intro e he
    by_cases hf : p ∈ fs
    · by_cases hl : p ∈ locked
      · simp [release, os_remove, hf, hl]
      · simp [os_remove, hf, hl] at he
    · simp [release, hf]

/-- C5 witness: a locked path (deletion raises `PermissionError`) is
swallowed, an absent path is a no-op, and a double release equals a single
one, at concrete inputs. -/
theorem c5_release_witness :
    release ["a"] ["a", "b"] "a" = ["a", "b"]
    ∧ release [] ["b"] "a" = ["b"]
    ∧ release [] (release [] ["a"] "a") "a" = release [] ["a"] "a" :=
  ⟨(c5_release_never_errors ["a"] ["a", "b"] "a").2.2 "PermissionError" (by rfl),
   (c5_release_never_errors [] ["b"] "a").1 (by decide),
   (c5_release_never_errors [] ["a"] "a").2.1⟩

/-- The paths the unlock handler issues are either none (the request was
rejected before the `try` block) or exactly the two paths composed from the
identifier sequence — never anything derived from the upload, the password
or the rest of the request. -/
theorem unlock_issued_cases (tempDir : String) (locked : List String) (file : Upload)
    (password : String) (id1 id2 : String) (pike : PikepdfOutcome) (fs : List String) :
    (unlock_pdf_legacy tempDir locked file password id1 id2 pike fs).issued = []
    ∨ (unlock_pdf_legacy tempDir locked file password id1 id2 pike fs).issued
        = [create_temp_file tempDir id1 ".pdf", create_temp_file tempDir id2 ".pdf"] := by
  by_cases h1 : validate_pdf_file file.filename = false
  · left; simp [unlock_pdf_legacy, h1]
  · by_cases h2 : validate_file_size file.size = false
    · left; simp [unlock_pdf_legacy, h1, h2]
    · right; simp [unlock_pdf_legacy, h1, h2]

/-- C9: two-run noninterference of path issuance with respect to request
data. Two unlock runs sharing the same identifier sequence (and scratch
directory) that each issue at least one path issue identical path lists,
however their uploads, passwords, pikepdf outcomes, fault injections and
initial filesystems differ: the issued paths are never derived from user
input. -/
theorem c9_issued_paths_ignore_user_input (tempDir : String)
    (locked1 locked2 : List String) (f1 f2 : Upload) (pw1 pw2 : String)
    (id1 id2 : String) (pk1 pk2 : PikepdfOutcome) (fs1 fs2 : List String)
    (h1 : (unlock_pdf_legacy tempDir locked1 f1 pw1 id1 id2 pk1 fs1).issued ≠ [])
    (h2 : (unlock_pdf_legacy tempDir locked2 f2 pw2 id1 id2 pk2 fs2).issued ≠ []) :
    (unlock_pdf_legacy tempDir locked1 f1 pw1 id1 id2 pk1 fs1).issued
      = (unlock_pdf_legacy tempDir locked2 f2 pw2 id1 id2 pk2 fs2).issued := by
  rcases unlock_issued_cases tempDir locked1 f1 pw1 id1 id2 pk1 fs1 with ha | ha
  · exact absurd ha h1
  · rcases unlock_issued_cases tempDir locked2 f2 pw2 id1 id2 pk2 fs2 with hb | hb
    · exact absurd hb h2
    · rw [ha, hb]

/-- C9 witness: two valid requests differing in filename, size, content and
password (and in the pikepdf outcome those induce) issue the same two
scratch paths when the random identifier sequence is the same. -/
theorem c9_witness :
    (unlock_pdf_legacy "/t" [] ⟨"a.pdf", 100, [0]⟩ "pw1" "u1" "u2" .ok []).issued
      = (unlock_pdf_legacy "/t" [] ⟨"b.PDF", 200, [1]⟩ "pw2" "u1" "u2" .passwordError []).issued :=
  c9_issued_paths_ignore_user_input "/t" [] [] ⟨"a.pdf", 100, [0]⟩ ⟨"b.PDF", 200, [1]⟩
    "pw1" "pw2" "u1" "u2" .ok .passwordError [] [] (by decide) (by decide)

/-- The rejection condition of the claim, in its own words: the uploaded
filename does not end case-insensitively with `.pdf`, or the declared size
strictly exceeds 50 MiB (52428800 bytes). -/
def claimRejectCond (file : Upload) : Prop :=
  str_endswith (str_lower file.filename) ".pdf" = false ∨ 52428800 < file.size

instance (file : Upload) : Decidable (claimRejectCond file) := by
  unfold claimRejectCond; infer_instance

/-- The shared pre-issuance check shape rejects with 400 exactly under the
claim's condition. -/
theorem pdf_checks_iff (file : Upload) :
    (if validate_pdf_file file.filename = false then some 400
     else if validate_file_size file.size = false then some 400
     else (none : Option Nat)) = some 400 ↔ claimRejectCond file := by
  by_cases h1 : validate_pdf_file file.filename = false
  · simp only [h1, if_pos rfl]
    simp [claimRejectCond, validate_pdf_file] at h1 ⊢
    exact Or.inl h1
  · by_cases h2 : validate_file_size file.size = false
    · simp only [if_neg h1, h2, if_pos rfl]
      simp [claimRejectCond, validate_file_size, MAX_FILE_SIZE] at h2 ⊢
      exact Or.inr h2
    · simp only [if_neg h1, if_neg h2]
      simp [claimRejectCond, validate_pdf_file, validate_file_size, MAX_FILE_SIZE] at h1 h2 ⊢
      exact ⟨h1, h2⟩

/-- C10 counterexample: the compress endpoint rejects with 400 before
issuing any scratch path on a request whose filename does end with `.pdf`
and whose size is within the 50 MiB bound — the invalid
`compression_level` form value triggers it — refuting the claimed
"if and only if". -/
theorem c10_counterexample :
    adobe_compress_pdf_preIssue ⟨"a.pdf", 100, []⟩ "extreme" = some 400
    ∧ str_endswith (str_lower "a.pdf") ".pdf" = true
    ∧ (100 : Nat) ≤ 52428800 := by
  decide

/-- A rejected unlock request issues no scratch path. -/
theorem unlock_rejected_issues_nothing (tempDir : String) (locked : List String)
    (file : Upload) (password : String) (id1 id2 : String) (pike : PikepdfOutcome)
    (fs : List String) :
    (unlock_pdf_legacy tempDir locked file password id1 id2 pike fs).issued = []
    ∨ unlock_pdf_preIssue file password = none := by
  by_cases h1 : validate_pdf_file file.filename = false
  · left; simp [unlock_pdf_legacy, h1]
  · by_cases h2 : validate_file_size file.size = false
    · left; simp [unlock_pdf_legacy, h1, h2]
    · right; simp [unlock_pdf_preIssue, h1, h2]

/-- A rejected text-extraction request issues no scratch path. -/
theorem extract_rejected_issues_nothing (tempDir : String) (locked : List String)
    (file : Upload) (id1 id2 : String) (ocr : AdobeOcrOutcome) (fs : List String) :
    (adobe_extract_text tempDir locked file id1 id2 ocr fs).issued = []
    ∨ adobe_extract_text_preIssue file = none := by
  by_cases h1 : validate_pdf_file file.filename = false
  · left; simp [adobe_extract_text, h1]
  · by_cases h2 : validate_file_size file.size = false
    · left; simp [adobe_extract_text, h1, h2]
    · right; simp [adobe_extract_text_preIssue, h1, h2]

/-- C10 amended: each of the seven plain PDF endpoints rejects with 400
before issuing any scratch path exactly when the filename does not end
case-insensitively with `.pdf` or the declared size strictly exceeds
52428800 bytes; the compress endpoint additionally rejects, still before
issuing, when its `compression_level` form field is not one of `low`,
`medium`, `high`. A file of exactly 50 MiB is accepted, a rejected request
issues no scratch path, and the checks never inspect the uploaded content
(nor the password). -/
theorem c10_preIssue_validation :
    (∀ (file : Upload) (pw : String),
        (unlock_pdf_preIssue file pw = some 400 ↔ claimRejectCond file)
        ∧ (lock_pdf_preIssue file pw = some 400 ↔ claimRejectCond file))
    ∧ (∀ file : Upload,
        (remove_pdf_links_preIssue file = some 400 ↔ claimRejectCond file)
        ∧ (adobe_pdf_to_word_preIssue file = some 400 ↔ claimRejectCond file)
        ∧ (adobe_pdf_to_excel_preIssue file = some 400 ↔ claimRejectCond file)
        ∧ (adobe_optimize_pdf_preIssue file = some 400 ↔ claimRejectCond file)
        ∧ (adobe_extract_text_preIssue file = some 400 ↔ claimRejectCond file))
    ∧ (∀ (file : Upload) (lvl : String),
        adobe_compress_pdf_preIssue file lvl = some 400
          ↔ (claimRejectCond file ∨ lvl ∉ (["low", "medium", "high"] : List String)))
    ∧ (∀ (fn : String) (sz : Nat) (c1 c2 : List Nat) (pw lvl : String),
        unlock_pdf_preIssue ⟨fn, sz, c1⟩ pw = unlock_pdf_preIssue ⟨fn, sz, c2⟩ pw
        ∧ lock_pdf_preIssue ⟨fn, sz, c1⟩ pw = lock_pdf_preIssue ⟨fn, sz, c2⟩ pw
        ∧ remove_pdf_links_preIssue ⟨fn, sz, c1⟩ = remove_pdf_links_preIssue ⟨fn, sz, c2⟩
        ∧ adobe_pdf_to_word_preIssue ⟨fn, sz, c1⟩ = adobe_pdf_to_word_preIssue ⟨fn, sz, c2⟩
        ∧ adobe_pdf_to_excel_preIssue ⟨fn, sz, c1⟩ = adobe_pdf_to_excel_preIssue ⟨fn, sz, c2⟩
        ∧ adobe_compress_pdf_preIssue ⟨fn, sz, c1⟩ lvl = adobe_compress_pdf_preIssue ⟨fn, sz, c2⟩ lvl
        ∧ adobe_optimize_pdf_preIssue ⟨fn, sz, c1⟩ = adobe_optimize_pdf_preIssue ⟨fn, sz, c2⟩
        ∧ adobe_extract_text_preIssue ⟨fn, sz, c1⟩ = adobe_extract_text_preIssue ⟨fn, sz, c2⟩)
    ∧ unlock_pdf_preIssue ⟨"a.pdf", 52428800, []⟩ "p" = none
    ∧ (∀ (tempDir : String) (locked : List String) (file : Upload) (pw id1 id2 : String)
          (pike : PikepdfOutcome) (fs : List String),
        (unlock_pdf_legacy tempDir locked file pw id1 id2 pike fs).issued = []
        ∨ unlock_pdf_preIssue file pw = none)
    ∧ (∀ (tempDir : String) (locked : List String) (file : Upload) (id1 id2 : String)
          (ocr : AdobeOcrOutcome) (fs : List String),
        (adobe_extract_text tempDir locked file id1 id2 ocr fs).issued = []
        ∨ adobe_extract_text_preIssue file = none) := by
  refine ⟨fun file pw => ⟨pdf_checks_iff file, pdf_checks_iff file⟩,
    fun file => ⟨pdf_checks_iff file, pdf_checks_iff file, pdf_checks_iff file,
      pdf_checks_iff file, pdf_checks_iff file⟩,
    ?_, fun fn sz c1 c2 pw lvl => ⟨rfl, rfl, rfl, rfl, rfl, rfl, rfl, rfl⟩,
    by decide, unlock_rejected_issues_nothing, extract_rejected_issues_nothing⟩
  intro file lvl
  by_cases h1 : validate_pdf_file file.filename = false
  · have := pdf_checks_iff file
    simp only [h1, if_pos rfl] at this ⊢
    simp only [adobe_compress_pdf_preIssue, h1, if_pos rfl]
    exact ⟨fun _ => Or.inl (this.mp rfl), fun _ => rfl⟩
  · by_cases h2 : validate_file_size file.size = false
    · have := pdf_checks_iff file
      simp only [if_neg h1, h2, if_pos rfl] at this
      simp only [adobe_compress_pdf_preIssue, if_neg h1, h2, if_pos rfl]
      exact ⟨fun _ => Or.inl (this.mp rfl), fun _ => rfl⟩
    · have hno := pdf_checks_iff file
      simp only [if_neg h1, if_neg h2] at hno
      by_cases h3 : lvl ∈ (["low", "medium", "high"] : List String)
      · have hnotrej : ¬claimRejectCond file := fun hc => by
          have hcontra := hno.mpr hc
          simp at hcontra
        simp [adobe_compress_pdf_preIssue, if_neg h1, if_neg h2, h3, hnotrej]
      · simp [adobe_compress_pdf_preIssue, if_neg h1, if_neg h2, h3]

/-- Appending strings appends their character lists. -/
theorem string_data_append (a b : String) : (a ++ b).data = a.data ++ b.data := rfl

/-- A character of a uuid4 rendering (lowercase hex digit or hyphen) is
never the path separator. -/
theorem uuid_char_ne_slash (c : Char) (h : (isLowerHexChar c || c == '-') = true) :
    c ≠ '/' := by
  intro hc
  subst hc
  exact absurd h (by decide)

/-- What `isUuidStr` packs: exactly 36 characters, none of them a slash. -/
theorem isUuidStr_spec (s : String) (h : isUuidStr s = true) :
    s.data.length = 36 ∧ ∀ c ∈ s.data, c ≠ '/' := by
  simp only [isUuidStr, Bool.and_eq_true, beq_iff_eq] at h
  obtain ⟨h1, h2⟩ := h
  refine ⟨h1, fun c hc => uuid_char_ne_slash c ?_⟩
  exact List.all_eq_true.mp h2 c hc

/-- On a sane scratch directory (nonempty, no trailing separator — the shape
`tempfile.mkdtemp()` returns) and a uuid identifier, the composed path is
plain concatenation with one separator inserted. -/
theorem create_temp_file_shape (tempDir id ext : String) (hne : tempDir ≠ "")
    (hsl : endsWithSlash tempDir = false) (hu : isUuidStr id = true) :
    create_temp_file tempDir id ext = tempDir ++ "/" ++ (id ++ ext) := by
  obtain ⟨hlen, hslash⟩ := isUuidStr_spec id hu
  have hid : id.data ≠ [] := by
    intro h
    rw [h] at hlen
    simp at hlen
  obtain ⟨c, cs, hc⟩ := List.exists_cons_of_ne_nil hid
  have hcne : c ≠ '/' := hslash c (by rw [hc]; exact List.mem_cons_self c cs)
  have hhead : startsWithSlash (id ++ ext) = false := by
    simp only [startsWithSlash, string_data_append, hc, List.cons_append, List.head?_cons]
    simp [hcne]
  simp [create_temp_file, os_path_join, hhead, hne, hsl]

/-- Equal composed scratch paths force equal identifiers: identifiers share
length 36, so the identifier segments of the two equal strings coincide. -/
theorem create_temp_file_inj (tempDir : String) (hne : tempDir ≠ "")
    (hsl : endsWithSlash tempDir = false) (id1 id2 ext1 ext2 : String)
    (hu1 : isUuidStr id1 = true) (hu2 : isUuidStr id2 = true)
    (heq : create_temp_file tempDir id1 ext1 = create_temp_file tempDir id2 ext2) :
    id1 = id2 := by
  rw [create_temp_file_shape tempDir id1 ext1 hne hsl hu1,
      create_temp_file_shape tempDir id2 ext2 hne hsl hu2] at heq
  have hdata := congrArg String.data heq
  simp only [string_data_append, List.append_assoc] at hdata
  have hmid := List.append_cancel_left (List.append_cancel_left hdata)
  have hlen : id1.data.length = id2.data.length := by
    rw [(isUuidStr_spec id1 hu1).1, (isUuidStr_spec id2 hu2).1]
  exact String.ext (List.append_inj hmid hlen).1

/-- C4: path issuance is collision-free. For any number of issuances whose
generated uuid identifiers are pairwise distinct, the composed scratch
paths are pairwise distinct — whatever extensions the callers supply — so
no two concurrently live entries share a path. -/
theorem c4_issued_paths_distinct (tempDir : String) (hne : tempDir ≠ "")
    (hsl : endsWithSlash tempDir = false) (N : Nat) (ids exts : Fin N → String)
    (huuid : ∀ k, isUuidStr (ids k) = true)
    (hdist : ∀ j k, ids j = ids k → j = k) :
    ∀ j k, create_temp_file tempDir (ids j) (exts j)
        = create_temp_file tempDir (ids k) (exts k) → j = k :=
  fun j k h =>
    hdist j k (create_temp_file_inj tempDir hne hsl (ids j) (ids k) (exts j) (exts k)
      (huuid j) (huuid k) h)

/-- C4 witness: two concrete issuances with distinct uuid identifiers yield
distinct paths. -/
theorem c4_witness :
    create_temp_file "/tmp/qst" "aaaaaaaa-aaaa-4aaa-8aaa-aaaaaaaaaaaa" ".pdf"
      ≠ create_temp_file "/tmp/qst" "bbbbbbbb-bbbb-4bbb-8bbb-bbbbbbbbbbbb" ".pdf" := by
  intro h
  have h01 := c4_issued_paths_distinct "/tmp/qst" (by decide) (by decide) 2
    (fun k => if k.val = 0 then "aaaaaaaa-aaaa-4aaa-8aaa-aaaaaaaaaaaa"
      else "bbbbbbbb-bbbb-4bbb-8bbb-bbbbbbbbbbbb")
    (fun _ => ".pdf") (by decide) (by decide) 0 1 h
  exact absurd h01 (by decide)

end QuickSideTool
